import Mathlib

/-!
Verification of the encrypted-matching protocol of this repository.

The development shallowly embeds the two Rust source files:
* `encrypted_match/encrypted-ixs/src/lib.rs` — the confidential (MPC)
  circuits, embedded in namespace `EncryptedMatch.Circuits`.  `u64`/`u8`
  values are modelled as `Nat`; the `Enc<_, T>` ciphertext envelopes are
  transparent in the circuit bodies (the circuits immediately call
  `to_arcis`/`from_arcis`), so the circuit functions are embedded as pure
  functions on the plaintext payloads, exactly as the circuit bodies
  compute on them.  Wrapping `u8` arithmetic is made explicit with `% 256`.
* `encrypted_match/programs/contract/src/lib.rs` — the on-chain
  orchestration program, embedded in namespace `EncryptedMatch.Contract`.
  `Pubkey` is modelled as `Nat`, `i64` timestamps as `Int`.  Anchor account
  plumbing (PDAs, rent, the Arcium fee/mempool accounts) is out of scope of
  the claims and is elided; what is kept is every read and write the
  instruction handlers perform on the durable `MatchPairSession` record,
  the authorization check, whether `queue_computation` is reached, and the
  error each early `return` surfaces.  An Anchor handler that returns
  `Err` commits no account mutation, so handlers are embedded as functions
  returning the (possibly updated) record together with an optional
  `ErrorCode`; when the error is `some _` the returned record is the input
  record unchanged, mirroring the transactional rollback.
-/

namespace EncryptedMatch

namespace Circuits

/-- Confidential per-pair session state, from struct `MatchSession` in
`encrypted-ixs/src/lib.rs` (lines 7-14). -/
structure MatchSession where
  user_a_id : Nat
  user_b_id : Nat
  user_a_liked : Bool
  user_b_liked : Bool
  session_created_at : Nat
  last_updated : Nat
  deriving DecidableEq

/-- One user's encrypted like submission, from struct `UserLikeAction`
(lines 16-21). -/
structure UserLikeAction where
  user_id : Nat
  target_id : Nat
  like_action : Bool
  timestamp : Nat
  deriving DecidableEq

/-- Revealed result of a match check, from struct `MatchResult`
(lines 22-26).  `session_status` is a `u8` status code. -/
structure MatchResult where
  is_mutual_match : Bool
  session_status : Nat
  match_timestamp : Nat
  deriving DecidableEq

/-- Circuit `init_match_session` (lines 29-46): builds a fresh session
with both like flags false and both timestamps set to
`current_timestamp`.  The `mxe.from_arcis` re-encryption envelope is
transparent here; the function is total (no error conditions). -/
def init_match_session (user_a_id user_b_id current_timestamp : Nat) :
    MatchSession :=
  { user_a_id := user_a_id
    user_b_id := user_b_id
    user_a_liked := false
    user_b_liked := false
    session_created_at := current_timestamp
    last_updated := current_timestamp }

/-- Circuit `submit_like` (lines 49-83): applies one like submission to the
session and returns the updated session together with the revealed `u8`
status flag (0 = no-op, 1 = recorded, 2 = mutual interest).  The source
initialises `status_flag = 0`, takes the A branch when the action is
A-oriented and `user_a_liked` is not yet set, the symmetric B branch
otherwise, and else leaves the session untouched; inside an accepted
branch the flag is set to `like_action`, `last_updated` to the action's
timestamp, and the status is upgraded to 2 when both flags are true after
the assignment. -/
def submit_like (match_session : MatchSession)
    (like_action : UserLikeAction) : MatchSession × Nat :=
  if like_action.user_id = match_session.user_a_id ∧
     like_action.target_id = match_session.user_b_id ∧
     match_session.user_a_liked = false then
    let s := { match_session with
                 user_a_liked := like_action.like_action
                 last_updated := like_action.timestamp }
    (s, if s.user_a_liked && s.user_b_liked then 2 else 1)
  else if like_action.user_id = match_session.user_b_id ∧
          like_action.target_id = match_session.user_a_id ∧
          match_session.user_b_liked = false then
    let s := { match_session with
                 user_b_liked := like_action.like_action
                 last_updated := like_action.timestamp }
    (s, if s.user_a_liked && s.user_b_liked then 2 else 1)
  else
    (match_session, 0)

/-- Circuit `check_mutual_match` (lines 86-110): pure read of the two like
flags.  Both true gives status 1 with `match_timestamp = now`; exactly one
true gives status 0; neither gives status 2; no match means timestamp 0.
The session ciphertext is not modified. -/
def check_mutual_match (match_session : MatchSession)
    (current_timestamp : Nat) : MatchResult :=
  let is_mutual := match_session.user_a_liked && match_session.user_b_liked
  let status : Nat :=
    if is_mutual then 1
    else if match_session.user_a_liked || match_session.user_b_liked then 0
    else 2
  let match_timestamp := if is_mutual then current_timestamp else 0
  { is_mutual_match := is_mutual
    session_status := status
    match_timestamp := match_timestamp }

/-- Confidential preference payload, from struct `UserPreferences` in
`encrypted-ixs/src/lib.rs` (lines 113-119); `u8` fields as `Nat`. -/
structure UserPreferences where
  preferred_age_min : Nat
  preferred_age_max : Nat
  interests_count : Nat
  location_preference : Nat
  relationship_type : Nat
  deriving DecidableEq

/-- Confidential profile payload, from struct `UserProfile` in
`encrypted-ixs/src/lib.rs` (lines 121-126); `u8` fields as `Nat`. -/
structure UserProfile where
  age : Nat
  interests_count : Nat
  location_score : Nat
  relationship_type : Nat
  deriving DecidableEq

/-- Body of circuit `calculate_compatibility` (lines 128-174) up to but not
including the final cap-at-100 branch: the running `compatibility_score`
after the age (+30), interests (capped +25), location (capped +25) and
relationship (+20) components.  All intermediate `u8` additions and the
`min_interests * 25` product wrap modulo 256, made explicit with `% 256`. -/
def compatibility_score_raw (user_a_prefs : UserPreferences)
    (user_b_profile : UserProfile) (user_b_prefs : UserPreferences)
    (user_a_profile : UserProfile) : Nat :=
  let s0 : Nat := 0
  let s1 :=
    if user_b_profile.age ≥ user_a_prefs.preferred_age_min ∧
       user_b_profile.age ≤ user_a_prefs.preferred_age_max ∧
       user_a_profile.age ≥ user_b_prefs.preferred_age_min ∧
       user_a_profile.age ≤ user_b_prefs.preferred_age_max then
      (s0 + 30) % 256
    else s0
  let interests_score :=
    if user_a_profile.interests_count > 0 ∧
       user_b_profile.interests_count > 0 then
      let min_interests :=
        if user_a_profile.interests_count < user_b_profile.interests_count
        then user_a_profile.interests_count
        else user_b_profile.interests_count
      (min_interests * 25 % 256) / 10
    else 0
  let s2 :=
    (s1 + if interests_score > 25 then 25 else interests_score) % 256
  let location_score :=
    ((user_a_profile.location_score + user_b_profile.location_score) % 256)
      / 2
  let s3 :=
    (s2 + if location_score > 25 then 25 else location_score) % 256
  let s4 :=
    if user_a_profile.relationship_type = user_b_profile.relationship_type
    then (s3 + 20) % 256
    else s3
  s4

/-- Circuit `calculate_compatibility` (lines 128-175): the accumulated
score followed by the source's final `if compatibility_score > 100 { 100 }`
cap. -/
def calculate_compatibility (user_a_prefs : UserPreferences)
    (user_b_profile : UserProfile) (user_b_prefs : UserPreferences)
    (user_a_profile : UserProfile) : Nat :=
  let compatibility_score :=
    compatibility_score_raw user_a_prefs user_b_profile user_b_prefs
      user_a_profile
  if compatibility_score > 100 then 100 else compatibility_score

end Circuits

namespace Contract

/-- Error codes of the on-chain program, from `#[error_code] enum
ErrorCode` in `programs/contract/src/lib.rs` (lines 243-275). -/
inductive ErrorCode where
  | AbortedComputation
  | ClusterNotSet
  | UsernameTooShort
  | UsernameTooLong
  | InvalidUsernameFormat
  | InvalidAge
  | DataTooLarge
  | PreferencesTooLarge
  | ProfileAlreadyExists
  | InvalidEncryptedData
  | AvatarRequired
  | LocationRequired
  | InvalidEncryptionKey
  | UnauthorizedUser
  | InvalidSession
  deriving DecidableEq

/-- Durable on-chain session record, from `#[account] struct
MatchPairSession` (lines 116-128).  `Pubkey` is modelled as `Nat`, the
`[[u8; 32]; 6]` ciphertext block as a `List Nat` (one entry per 32-byte
ciphertext word), `u128`/`u64`/`u8` as `Nat` and `i64` timestamps as
`Int`. -/
structure MatchPairSession where
  session_id : Nat
  user_a : Nat
  user_b : Nat
  encrypted_match_data : List Nat
  nonce : Nat
  created_at : Int
  last_updated : Int
  is_finalized : Bool
  match_found : Bool
  bump : Nat
  deriving DecidableEq

/-- Outcome of a queued confidential computation, from the Arcium
`ComputationOutputs` enum as consumed by the callbacks: the handlers match
`Success(..)` and treat every other variant (the `_` arm) as an abort. -/
inductive ComputationOutputs (α : Type) where
  | Success (output : α)
  | Aborted
  deriving DecidableEq

/-- Re-encrypted session ciphertext returned by the engine: the
`ciphertexts` block (six 32-byte words, modelled as `List Nat`) plus the
fresh `nonce`. -/
structure EncryptedSessionBlob where
  ciphertexts : List Nat
  nonce : Nat
  deriving DecidableEq

/-- Success payload of the `init_match_session` computation: `field_0` is
the encrypted session blob. -/
structure InitMatchSessionOutput where
  field_0 : EncryptedSessionBlob
  deriving DecidableEq

/-- Success payload of the `submit_like` computation: `field_0` is the
pair of the re-encrypted session blob and the revealed `u8` status flag. -/
structure SubmitLikeOutput where
  field_0 : EncryptedSessionBlob × Nat
  deriving DecidableEq

/-- Revealed `MatchResult` tuple of the `check_mutual_match` computation:
`field_0` = `is_mutual_match`, `field_1` = `session_status` (`u8`),
`field_2` = `match_timestamp` (`u64`). -/
structure RevealedMatchResult where
  field_0 : Bool
  field_1 : Nat
  field_2 : Nat
  deriving DecidableEq

/-- Success payload of the `check_mutual_match` computation. -/
structure CheckMutualMatchOutput where
  field_0 : RevealedMatchResult
  deriving DecidableEq

/-- Handler `init_match_session_callback` (lines 419-435): on `Success`
it stores the returned ciphertext block and nonce into the record; on any
other outcome it returns `ErrorCode::AbortedComputation` before touching
the account, so the record is returned unchanged (Anchor rolls back on
`Err`). -/
def init_match_session_callback
    (output : ComputationOutputs InitMatchSessionOutput)
    (match_session : MatchPairSession) :
    MatchPairSession × Option ErrorCode :=
  match output with
  | .Success o =>
    ({ match_session with
         encrypted_match_data := o.field_0.ciphertexts
         nonce := o.field_0.nonce }, none)
  | .Aborted => (match_session, some ErrorCode.AbortedComputation)

/-- Handler `submit_like_callback` (lines 485-524): on `Success` it stores
the re-encrypted session and nonce and sets `last_updated` to the current
clock time `now` — unconditionally, whatever the revealed status flag is
(the `match status_flag` in the source only emits events and log
messages); on any other outcome it returns
`ErrorCode::AbortedComputation` with the record unchanged. -/
def submit_like_callback (output : ComputationOutputs SubmitLikeOutput)
    (now : Int) (match_session : MatchPairSession) :
    MatchPairSession × Option ErrorCode :=
  match output with
  | .Success o =>
    ({ match_session with
         encrypted_match_data := o.field_0.1.ciphertexts
         nonce := o.field_0.1.nonce
         last_updated := now }, none)
  | .Aborted => (match_session, some ErrorCode.AbortedComputation)

/-- Handler `check_mutual_match_callback` (lines 554-602): on `Success` it
sets `is_finalized := true` unconditionally and `match_found` to the
revealed `is_mutual_match` bit (the source writes `true` in the match
branch and `false` in the other); on any other outcome it returns
`ErrorCode::AbortedComputation` with the record unchanged. -/
def check_mutual_match_callback
    (output : ComputationOutputs CheckMutualMatchOutput)
    (match_session : MatchPairSession) :
    MatchPairSession × Option ErrorCode :=
  match output with
  | .Success o =>
    ({ match_session with
         is_finalized := true
         match_found := o.field_0.field_0 }, none)
  | .Aborted => (match_session, some ErrorCode.AbortedComputation)

/-- Handler `submit_like` (lines 439-483): reads the session immutably,
requires the signer to be `user_a` or `user_b` (otherwise
`ErrorCode::UnauthorizedUser` is returned before `queue_computation` is
reached), then queues the confidential computation.  The returned `Bool`
records whether `queue_computation` was invoked; the encrypted argument
blobs and Arcium account plumbing carry no session state and are elided.
The handler itself never writes the record. -/
def submit_like (user : Nat) (match_session : MatchPairSession) :
    MatchPairSession × Option ErrorCode × Bool :=
  if user = match_session.user_a ∨ user = match_session.user_b then
    (match_session, none, true)
  else
    (match_session, some ErrorCode.UnauthorizedUser, false)

/-- Modelled from the spec: the confidential engine (spec §4.2) is
external to this repository; it re-encrypts the updated session under the
session context and returns a fresh ciphertext block of six 32-byte words
— one per `MatchSession` field — plus a fresh nonce.  The block is opaque
to the contract; the model only needs that distinct plaintext sessions
yield distinct blocks, so it is embedded as the per-field value
encoding. -/
def encodeSession (s : Circuits.MatchSession) : List Nat :=
  [s.user_a_id, s.user_b_id, cond s.user_a_liked 1 0,
   cond s.user_b_liked 1 0, s.session_created_at, s.last_updated]

/-- One full round trip of a like submission: the `submit_like` handler's
authorization check, then — when the computation was queued — the
confidential `submit_like` circuit applied to the plaintext `inner`
session that the stored ciphertext encrypts, then `submit_like_callback`
applied at clock time `now` to the engine's `Success` output (the
re-encrypted session under a fresh nonce, and the revealed status).
Returns the updated record, the updated plaintext session, the revealed
status (`none` when the request was rejected synchronously), and the
surfaced error. -/
def submit_like_full (user : Nat) (action : Circuits.UserLikeAction)
    (record : MatchPairSession) (inner : Circuits.MatchSession)
    (now : Int) :
    MatchPairSession × Circuits.MatchSession × Option Nat
      × Option ErrorCode :=
  match (submit_like user record).2.1 with
  | some e => (record, inner, none, some e)
  | none =>
    let r := Circuits.submit_like inner action
    let out : ComputationOutputs SubmitLikeOutput :=
      .Success ⟨(⟨encodeSession r.1, record.nonce + 1⟩, r.2)⟩
    let cb := submit_like_callback out now record
    (cb.1, r.1, some r.2, cb.2)

end Contract

/-- C9: for all user identifiers and every timestamp `now`,
`init_match_session` produces a session with both like flags false, the
given identifiers stored in slots A and B, and
`created_at = last_updated = now`; the embedded circuit is a total
function, so the operation has no error conditions. -/
theorem init_match_session_spec (user_a_id user_b_id now : Nat) :
    (Circuits.init_match_session user_a_id user_b_id now).user_a_id
        = user_a_id ∧
    (Circuits.init_match_session user_a_id user_b_id now).user_b_id
        = user_b_id ∧
    (Circuits.init_match_session user_a_id user_b_id now).user_a_liked
        = false ∧
    (Circuits.init_match_session user_a_id user_b_id now).user_b_liked
        = false ∧
    (Circuits.init_match_session user_a_id user_b_id now).session_created_at
        = now ∧
    (Circuits.init_match_session user_a_id user_b_id now).last_updated
        = now :=
  ⟨rfl, rfl, rfl, rfl, rfl, rfl⟩

/-- C5: `check_mutual_match` returns exactly `(true, 1, now)` when both
like flags are true, `(false, 0, 0)` when exactly one is true and
`(false, 2, 0)` when neither is; and the result depends only on the two
flags and `now`, so calling it twice without an intervening submission
yields identical results. -/
theorem check_mutual_match_spec (s : Circuits.MatchSession) (now : Nat) :
    (s.user_a_liked = true → s.user_b_liked = true →
      Circuits.check_mutual_match s now = ⟨true, 1, now⟩) ∧
    ((s.user_a_liked = true ∧ s.user_b_liked = false) ∨
     (s.user_a_liked = false ∧ s.user_b_liked = true) →
      Circuits.check_mutual_match s now = ⟨false, 0, 0⟩) ∧
    (s.user_a_liked = false → s.user_b_liked = false →
      Circuits.check_mutual_match s now = ⟨false, 2, 0⟩) ∧
    (∀ s2 : Circuits.MatchSession, s2.user_a_liked = s.user_a_liked →
      s2.user_b_liked = s.user_b_liked →
      Circuits.check_mutual_match s2 now =
        Circuits.check_mutual_match s now) := by
  obtain ⟨ida, idb, la, lb, ca, lu⟩ := s
  refine ⟨?_, ?_, ?_, ?_⟩
  · intro h1 h2
    simp_all [Circuits.check_mutual_match]
  · rintro (⟨h1, h2⟩ | ⟨h1, h2⟩) <;>
      simp_all [Circuits.check_mutual_match]
  · intro h1 h2
    simp_all [Circuits.check_mutual_match]
  · intro s2 h1 h2
    obtain ⟨ida2, idb2, la2, lb2, ca2, lu2⟩ := s2
    simp_all [Circuits.check_mutual_match]

/-- Witness for C5 at a concrete session: both flags true gives the
mutual-match result with the supplied timestamp. -/
theorem check_mutual_match_spec_witness :
    Circuits.check_mutual_match ⟨1, 2, true, true, 5, 6⟩ 9 =
      ⟨true, 1, 9⟩ :=
  (check_mutual_match_spec ⟨1, 2, true, true, 5, 6⟩ 9).1 rfl rfl

/-- C6: an `Aborted` computation outcome makes each of the three callbacks
(`init_match_session_callback`, `submit_like_callback`,
`check_mutual_match_callback`) surface `ErrorCode.AbortedComputation` and
leave every field of the stored `MatchPairSession` record unchanged: the
callback's effect is all-or-nothing. -/
theorem aborted_callbacks_preserve_session
    (record : Contract.MatchPairSession) (now : Int) :
    Contract.init_match_session_callback .Aborted record
        = (record, some Contract.ErrorCode.AbortedComputation) ∧
    Contract.submit_like_callback .Aborted now record
        = (record, some Contract.ErrorCode.AbortedComputation) ∧
    Contract.check_mutual_match_callback .Aborted record
        = (record, some Contract.ErrorCode.AbortedComputation) :=
  ⟨rfl, rfl, rfl⟩

/-- C7: when the action's `(user_id, target_id)` pair matches neither slot
orientation of the session, or the matching side's like flag is already
set — i.e. neither accepting guard of the circuit holds — `submit_like`
returns status 0 (`NoOp`) and the session it returns equals the input
session field for field. -/
theorem submit_like_noop_frame (s : Circuits.MatchSession)
    (act : Circuits.UserLikeAction)
    (hA : ¬(act.user_id = s.user_a_id ∧ act.target_id = s.user_b_id ∧
            s.user_a_liked = false))
    (hB : ¬(act.user_id = s.user_b_id ∧ act.target_id = s.user_a_id ∧
            s.user_b_liked = false)) :
    Circuits.submit_like s act = (s, 0) := by
  unfold Circuits.submit_like
  rw [if_neg hA, if_neg hB]

/-- Witness for C7: a duplicate A-side submission against a session whose
A flag is already set is a no-op. -/
theorem submit_like_noop_frame_witness :
    Circuits.submit_like ⟨1, 2, true, false, 5, 5⟩ ⟨1, 2, true, 7⟩
        = (⟨1, 2, true, false, 5, 5⟩, 0) :=
  submit_like_noop_frame ⟨1, 2, true, false, 5, 5⟩ ⟨1, 2, true, 7⟩
    (by decide) (by decide)

/-- C8: a `submit_like` request whose signer is neither `user_a` nor
`user_b` of the session is rejected with `ErrorCode.UnauthorizedUser`
synchronously: no computation is queued (the `Bool` component is `false`)
and the session record is returned unchanged. -/
theorem submit_like_unauthorized_rejected (user : Nat)
    (record : Contract.MatchPairSession)
    (ha : user ≠ record.user_a) (hb : user ≠ record.user_b) :
    Contract.submit_like user record =
      (record, some Contract.ErrorCode.UnauthorizedUser, false) := by
  unfold Contract.submit_like
  rw [if_neg]
  rintro (h | h)
  · exact ha h
  · exact hb h

/-- Witness for C8: signer 3 is rejected on a session between users 10
and 20. -/
theorem submit_like_unauthorized_rejected_witness :
    Contract.submit_like 3
        ⟨1, 10, 20, [], 7, 100, 100, false, false, 255⟩
      = (⟨1, 10, 20, [], 7, 100, 100, false, false, 255⟩,
         some Contract.ErrorCode.UnauthorizedUser, false) :=
  submit_like_unauthorized_rejected 3
    ⟨1, 10, 20, [], 7, 100, 100, false, false, 255⟩
    (by decide) (by decide)

/-- C4: an accepted `submit_like` transition (one whose revealed status is
not 0) reveals status 2 (`MutualInterest`) exactly when both like flags
are true immediately after the just-applied update; and starting from a
fresh session, two `like = true` submissions reach status 2 on the second
submission in either order (A then B, or B then A). -/
theorem submit_like_mutual_iff_order_independent
    (s : Circuits.MatchSession) (act : Circuits.UserLikeAction) :
    ((Circuits.submit_like s act).2 = 2 ↔
      ((Circuits.submit_like s act).2 ≠ 0 ∧
       (Circuits.submit_like s act).1.user_a_liked = true ∧
       (Circuits.submit_like s act).1.user_b_liked = true)) ∧
    (∀ a b t0 t1 t2 : Nat,
      (Circuits.submit_like
        (Circuits.submit_like (Circuits.init_match_session a b t0)
          ⟨a, b, true, t1⟩).1 ⟨b, a, true, t2⟩).2 = 2 ∧
      (Circuits.submit_like
        (Circuits.submit_like (Circuits.init_match_session a b t0)
          ⟨b, a, true, t1⟩).1 ⟨a, b, true, t2⟩).2 = 2) := by
  constructor
  · unfold Circuits.submit_like
    by_cases hA : act.user_id = s.user_a_id ∧ act.target_id = s.user_b_id ∧
        s.user_a_liked = false
    · rw [if_pos hA]
      cases h : act.like_action <;> cases hb : s.user_b_liked <;>
        simp [h, hb]
    · rw [if_neg hA]
      by_cases hB : act.user_id = s.user_b_id ∧
          act.target_id = s.user_a_id ∧ s.user_b_liked = false
      · rw [if_pos hB]
        cases h : act.like_action <;> cases ha : s.user_a_liked <;>
          simp [h, ha]
      · rw [if_neg hB]
        simp
  · intro a b t0 t1 t2
    by_cases hab : a = b
    · subst hab
      constructor <;>
        simp [Circuits.submit_like, Circuits.init_match_session]
    · constructor <;>
        simp [Circuits.submit_like, Circuits.init_match_session, hab,
          Ne.symm hab]

/-- Helper: the accumulated compatibility score before the final cap is at
most 100 — the age component adds at most 30, the interests and location
components are capped at 25 each, the relationship component adds at most
20, and none of the wrapping additions can overflow on the way. -/
theorem compatibility_score_raw_le (user_a_prefs : Circuits.UserPreferences)
    (user_b_profile : Circuits.UserProfile)
    (user_b_prefs : Circuits.UserPreferences)
    (user_a_profile : Circuits.UserProfile) :
    Circuits.compatibility_score_raw user_a_prefs user_b_profile
      user_b_prefs user_a_profile ≤ 100 := by
  unfold Circuits.compatibility_score_raw
  dsimp only
  generalize (if user_a_profile.interests_count > 0 ∧
        user_b_profile.interests_count > 0 then
      ((if user_a_profile.interests_count
            < user_b_profile.interests_count then
          user_a_profile.interests_count
        else user_b_profile.interests_count) * 25 % 256) / 10
    else 0) = iscore
  generalize ((user_a_profile.location_score
      + user_b_profile.location_score) % 256) / 2 = lscore
  have hc1 : (if iscore > 25 then 25 else iscore) ≤ 25 := by
    split <;> omega
  have hc2 : (if lscore > 25 then 25 else lscore) ≤ 25 := by
    split <;> omega
  generalize hg1 : (if iscore > 25 then 25 else iscore) = c1 at hc1
  generalize hg2 : (if lscore > 25 then 25 else lscore) = c2 at hc2
  split_ifs <;> omega

/-- C10: for every pair of preference/profile inputs,
`calculate_compatibility` (with the `u8` intermediate arithmetic wrapping
modulo 256) returns a score of at most 100; the pre-cap accumulated score
is itself at most 100, so the final cap-at-100 branch is never taken and
the revealed score equals the pre-cap score. -/
theorem calculate_compatibility_le_100
    (user_a_prefs : Circuits.UserPreferences)
    (user_b_profile : Circuits.UserProfile)
    (user_b_prefs : Circuits.UserPreferences)
    (user_a_profile : Circuits.UserProfile) :
    Circuits.calculate_compatibility user_a_prefs user_b_profile
        user_b_prefs user_a_profile ≤ 100 ∧
    Circuits.calculate_compatibility user_a_prefs user_b_profile
        user_b_prefs user_a_profile =
      Circuits.compatibility_score_raw user_a_prefs user_b_profile
        user_b_prefs user_a_profile := by
  have h := compatibility_score_raw_le user_a_prefs user_b_profile
    user_b_prefs user_a_profile
  unfold Circuits.calculate_compatibility
  dsimp only
  rw [if_neg (by omega)]
  exact ⟨h, rfl⟩

/-- Counterexample to C1: a first correctly-paired submission with
`like_action = false` is accepted (status 1, `Recorded`), yet the side's
flag stays false, so the second correctly-paired submission from the same
side is accepted again — status 1 rather than the claimed `NoOp`, the flag
flips to true and `last_updated` advances to the second timestamp. -/
theorem submit_like_second_submission_not_noop :
    (Circuits.submit_like (Circuits.init_match_session 1 2 10)
        ⟨1, 2, false, 11⟩).2 = 1 ∧
    (Circuits.submit_like
        (Circuits.submit_like (Circuits.init_match_session 1 2 10)
          ⟨1, 2, false, 11⟩).1 ⟨1, 2, true, 12⟩).2 = 1 ∧
    (Circuits.submit_like
        (Circuits.submit_like (Circuits.init_match_session 1 2 10)
          ⟨1, 2, false, 11⟩).1 ⟨1, 2, true, 12⟩).1.user_a_liked = true ∧
    (Circuits.submit_like
        (Circuits.submit_like (Circuits.init_match_session 1 2 10)
          ⟨1, 2, false, 11⟩).1 ⟨1, 2, true, 12⟩).1.last_updated = 12 := by
  decide

/-- C1 amended: a correctly-paired submission from a side whose like flag
is still false is accepted (status 1 or 2) and stores the submitted
`like_action` into that side's flag; once a side's flag is true, every
later correctly-paired submission from that side (in a session whose slot
identifiers are distinct) returns status 0 (`NoOp`) and leaves the session
unchanged, regardless of its `like_action`.  A first submission recording
`like_action = false` leaves the flag false and so does not consume the
side's one accepted transition. -/
theorem submit_like_once_per_side_amended
    (s : Circuits.MatchSession) (act : Circuits.UserLikeAction) :
    (act.user_id = s.user_a_id → act.target_id = s.user_b_id →
     s.user_a_liked = true → s.user_a_id ≠ s.user_b_id →
      Circuits.submit_like s act = (s, 0)) ∧
    (act.user_id = s.user_b_id → act.target_id = s.user_a_id →
     s.user_b_liked = true → s.user_a_id ≠ s.user_b_id →
      Circuits.submit_like s act = (s, 0)) ∧
    (act.user_id = s.user_a_id → act.target_id = s.user_b_id →
     s.user_a_liked = false →
      (Circuits.submit_like s act).1.user_a_liked = act.like_action ∧
      ((Circuits.submit_like s act).2 = 1 ∨
       (Circuits.submit_like s act).2 = 2)) ∧
    (act.user_id = s.user_b_id → act.target_id = s.user_a_id →
     s.user_b_liked = false → s.user_a_id ≠ s.user_b_id →
      (Circuits.submit_like s act).1.user_b_liked = act.like_action ∧
      ((Circuits.submit_like s act).2 = 1 ∨
       (Circuits.submit_like s act).2 = 2)) := by
  refine ⟨?_, ?_, ?_, ?_⟩
  · intro h1 h2 h3 hd
    unfold Circuits.submit_like
    rw [if_neg (by simp [h3]), if_neg (by simp [h1, hd])]
  · intro h1 h2 h3 hd
    unfold Circuits.submit_like
    rw [if_neg (by simp [h1, Ne.symm hd]), if_neg (by simp [h3])]
  · intro h1 h2 h3
    unfold Circuits.submit_like
    rw [if_pos ⟨h1, h2, h3⟩]
    refine ⟨rfl, ?_⟩
    dsimp only
    cases h : (act.like_action && s.user_b_liked) <;> simp [h]
  · intro h1 h2 h3 hd
    unfold Circuits.submit_like
    rw [if_neg (by simp [h1, Ne.symm hd]), if_pos ⟨h1, h2, h3⟩]
    refine ⟨rfl, ?_⟩
    dsimp only
    cases h : (s.user_a_liked && act.like_action) <;> simp [h]

/-- Witness for the amended C1: a duplicate A-side submission against a
session whose A flag is already true is a no-op. -/
theorem submit_like_once_per_side_amended_witness :
    Circuits.submit_like ⟨1, 2, true, false, 5, 6⟩ ⟨1, 2, false, 9⟩
      = (⟨1, 2, true, false, 5, 6⟩, 0) :=
  (submit_like_once_per_side_amended ⟨1, 2, true, false, 5, 6⟩
    ⟨1, 2, false, 9⟩).1 rfl rfl rfl (by decide)

/-- Counterexample to C2: a session record whose `is_finalized` is already
true still accepts a full `submit_like` round trip: user B's like flips
the confidential `user_b_liked` flag from false to true and the stored
ciphertext block is overwritten — no handler guards on `is_finalized`. -/
theorem finalized_session_still_mutated :
    (⟨1, 1, 2, [1, 2, 1, 0, 50, 60], 7, 100, 100, true, false, 255⟩
        : Contract.MatchPairSession).is_finalized = true ∧
    (⟨1, 2, true, false, 50, 60⟩
        : Circuits.MatchSession).user_b_liked = false ∧
    (Contract.submit_like_full 2 ⟨2, 1, true, 70⟩
        ⟨1, 1, 2, [1, 2, 1, 0, 50, 60], 7, 100, 100, true, false, 255⟩
        ⟨1, 2, true, false, 50, 60⟩ 200).2.1.user_b_liked = true ∧
    (Contract.submit_like_full 2 ⟨2, 1, true, 70⟩
        ⟨1, 1, 2, [1, 2, 1, 0, 50, 60], 7, 100, 100, true, false, 255⟩
        ⟨1, 2, true, false, 50, 60⟩ 200).1.encrypted_match_data
      = [1, 2, 1, 1, 50, 70] ∧
    (Contract.submit_like_full 2 ⟨2, 1, true, 70⟩
        ⟨1, 1, 2, [1, 2, 1, 0, 50, 60], 7, 100, 100, true, false, 255⟩
        ⟨1, 2, true, false, 50, 60⟩ 200).2.2.1 = some 2 := by
  decide

/-- C2 amended: `is_finalized` is terminal for the marker itself — no
handler or callback ever resets it to false (it is set true only by
`check_mutual_match_callback`); the code does not, however, prevent
post-finalization `submit_like` or `check_mutual_match` activity from
mutating the decision flags, the stored ciphertext or `last_updated`. -/
theorem is_finalized_monotone (record : Contract.MatchPairSession)
    (o1 : Contract.ComputationOutputs Contract.InitMatchSessionOutput)
    (o2 : Contract.ComputationOutputs Contract.SubmitLikeOutput)
    (o3 : Contract.ComputationOutputs Contract.CheckMutualMatchOutput)
    (user : Nat) (act : Circuits.UserLikeAction)
    (inner : Circuits.MatchSession) (now : Int)
    (h : record.is_finalized = true) :
    (Contract.init_match_session_callback o1 record).1.is_finalized
      = true ∧
    (Contract.submit_like_callback o2 now record).1.is_finalized = true ∧
    (Contract.check_mutual_match_callback o3 record).1.is_finalized
      = true ∧
    (Contract.submit_like user record).1.is_finalized = true ∧
    (Contract.submit_like_full user act record inner now).1.is_finalized
      = true := by
  refine ⟨?_, ?_, ?_, ?_, ?_⟩
  · cases o1 <;> simp [Contract.init_match_session_callback, h]
  · cases o2 <;> simp [Contract.submit_like_callback, h]
  · cases o3 <;> simp [Contract.check_mutual_match_callback, h]
  · unfold Contract.submit_like
    split_ifs <;> exact h
  · unfold Contract.submit_like_full Contract.submit_like
    split_ifs <;> simp [Contract.submit_like_callback, h]

/-- Witness for the amended C2: an aborted check callback on an already
finalized record keeps `is_finalized` true. -/
theorem is_finalized_monotone_witness :
    (Contract.check_mutual_match_callback .Aborted
        ⟨1, 1, 2, [], 7, 100, 100, true, false, 255⟩).1.is_finalized
      = true :=
  (is_finalized_monotone ⟨1, 1, 2, [], 7, 100, 100, true, false, 255⟩
    .Aborted .Aborted .Aborted 3 ⟨1, 2, true, 5⟩
    ⟨1, 2, false, false, 5, 5⟩ 200 rfl).2.2.1

/-- Counterexample to C3: a correctly-signed submission that the circuit
rejects as a duplicate (revealed status 0, `NoOp`) still advances the
durable record's `last_updated` when its callback lands: the callback
assigns the clock time unconditionally, whatever the status flag is. -/
theorem noop_callback_advances_last_updated :
    (⟨1, 1, 2, [1, 2, 1, 0, 50, 60], 7, 100, 100, false, false, 255⟩
        : Contract.MatchPairSession).last_updated = 100 ∧
    (Contract.submit_like_full 1 ⟨1, 2, true, 70⟩
        ⟨1, 1, 2, [1, 2, 1, 0, 50, 60], 7, 100, 100, false, false, 255⟩
        ⟨1, 2, true, false, 50, 60⟩ 200).2.2.1 = some 0 ∧
    (Contract.submit_like_full 1 ⟨1, 2, true, 70⟩
        ⟨1, 1, 2, [1, 2, 1, 0, 50, 60], 7, 100, 100, false, false, 255⟩
        ⟨1, 2, true, false, 50, 60⟩ 200).1.last_updated = 200 := by
  decide

/-- C3 amended: the confidential session's `last_updated` is untouched by
a `NoOp` transition (a status-0 `submit_like` leaves the whole session
unchanged), but the durable record's `last_updated` is assigned the
current clock time by every successful `submit_like_callback`, whatever
the revealed status, so it advances even for `NoOp` submissions. -/
theorem last_updated_noop_amended (s : Circuits.MatchSession)
    (act : Circuits.UserLikeAction)
    (h : (Circuits.submit_like s act).2 = 0)
    (o : Contract.SubmitLikeOutput) (now : Int)
    (record : Contract.MatchPairSession) :
    (Circuits.submit_like s act).1 = s ∧
    (Contract.submit_like_callback (.Success o) now record).1.last_updated
      = now := by
  refine ⟨?_, rfl⟩
  unfold Circuits.submit_like at h ⊢
  split_ifs at h ⊢ with h1 h2
  · dsimp only at h
    cases hb : (act.like_action && s.user_b_liked) <;> simp [hb] at h
  · dsimp only at h
    cases hb : (s.user_a_liked && act.like_action) <;> simp [hb] at h
  · rfl

/-- Witness for the amended C3: a concrete duplicate submission is a
circuit-level no-op, while a concrete successful callback stamps the
clock time into the durable record. -/
theorem last_updated_noop_amended_witness :
    (Circuits.submit_like ⟨1, 2, true, false, 5, 6⟩ ⟨1, 2, true, 9⟩).1
        = ⟨1, 2, true, false, 5, 6⟩ ∧
    (Contract.submit_like_callback (.Success ⟨(⟨[], 9⟩, 0)⟩) 200
        ⟨1, 1, 2, [], 7, 100, 100, false, false, 255⟩).1.last_updated
      = 200 :=
  last_updated_noop_amended ⟨1, 2, true, false, 5, 6⟩ ⟨1, 2, true, 9⟩
    (by decide) ⟨(⟨[], 9⟩, 0)⟩ 200
    ⟨1, 1, 2, [], 7, 100, 100, false, false, 255⟩

end EncryptedMatch
